import Mathlib

/-!
Shallow embedding of the cote-server backend (src/index.js): an Express app
proxying Google OAuth2 and Drive file operations.  Each HTTP handler is
modelled as a pure function from its request inputs and the results of its
upstream (Google) calls to a response value; the number of upstream calls
actually issued is recorded on the response.  Optional query/body/cookie
strings are `Option String`, with JavaScript truthiness made explicit.
-/

namespace Cote

/-- JavaScript truthiness of an optional string: `undefined` (absent) and the
empty string are falsy, every other string is truthy. -/
def jsTruthy : Option String → Bool
  | none => false
  | some s => !(s == "")

/-- A `Set-Cookie` issued by a handler via `res.cookie(name, value, {maxAge})`.
Express `maxAge` is in milliseconds. -/
structure SetCookie where
  name : String
  value : String
  maxAgeMs : Nat
deriving DecidableEq

/-- An error thrown by the googleapis Drive client; the handlers only inspect
its numeric `code` field (`error.code === 404`). -/
structure DriveError where
  code : Option Nat
deriving DecidableEq

/-- Metadata projection returned by `drive.files.get` with
`fields: "name, mimeType, starred"`. -/
structure FileMeta where
  name : String
  mimeType : String
  starred : Bool
deriving DecidableEq

/-- Token pair returned by `oauth2Client.getToken(code)`; Google may omit
either field. -/
structure GoogleTokens where
  access_token : Option String
  refresh_token : Option String
deriving DecidableEq

/-- Credentials returned by `oauth2Client.refreshAccessToken()`. -/
structure Credentials where
  access_token : Option String
deriving DecidableEq

/-- Profile returned by the oauth2 userinfo endpoint. -/
structure UserInfo where
  id : String
  email : String
  name : String
  picture : String
deriving DecidableEq

/-- The observable outcome of one handler invocation: HTTP status, the JSON
body fields the handlers emit (absent fields are `none`), cookies set,
redirect target, and the number of upstream Google calls performed. -/
structure Resp where
  status : Nat
  error : Option String := none
  starred : Option Bool := none
  filename : Option String := none
  content : Option String := none
  fileId : Option String := none
  name : Option String := none
  mimeType : Option String := none
  email : Option String := none
  picture : Option String := none
  success : Option Bool := none
  redirectTo : Option String := none
  cookiesSet : List SetCookie := []
  upstreamCalls : Nat := 0
deriving DecidableEq

/-- The `catch` block shared (textually repeated) by every Drive handler:
`error.code === 404` becomes 404 "File not found", anything else becomes the
handler-specific 500 message.  `calls` is how many upstream calls were made
before the error was thrown. -/
def driveCatch (e : DriveError) (msg : String) (calls : Nat) : Resp :=
  if e.code == some 404 then
    { status := 404, error := some "File not found", upstreamCalls := calls }
  else
    { status := 500, error := some msg, upstreamCalls := calls }

/-- Keys of the `supportedMimeTypes` object literal, first half: the
`// Text files` entries (source order, duplicates kept). -/
def textMimeTypes : List String := [
    "text/plain",
    "text/markdown",
    "text/x-markdown",
    "text/x-c",
    "text/x-c++",
    "text/x-java",
    "text/x-python",
    "text/x-php",
    "text/x-ruby",
    "text/x-swift",
    "text/x-go",
    "text/x-rust",
    "text/x-kotlin",
    "text/x-scala",
    "text/x-yaml",
    "text/x-toml",
    "text/x-ini",
    "text/x-shellscript",
    "text/x-sql",
    "text/x-html",
    "text/x-css",
    "text/x-javascript",
    "text/x-typescript",
    "text/x-coffeescript",
    "text/x-clojure",
    "text/x-dart",
    "text/x-elixir",
    "text/x-fsharp",
    "text/x-graphql",
    "text/x-handlebars",
    "text/x-hcl",
    "text/x-julia",
    "text/x-less",
    "text/x-lua",
    "text/x-objective-c",
    "text/x-pascal",
    "text/x-perl",
    "text/x-powershell",
    "text/x-protobuf",
    "text/x-pug",
    "text/x-r",
    "text/x-redis",
    "text/x-rst",
    "text/x-sass",
    "text/x-scss",
    "text/x-sol",
    "text/x-sparql",
    "text/x-st",
    "text/x-tcl",
    "text/x-twig",
    "text/x-vb",
    "text/x-xml",
    "text/x-yaml",
    "text/x-wgsl",
    "text/x-verilog",
    "text/x-systemverilog",
    "text/x-mips",
    "text/x-msdax",
    "text/x-mysql",
    "text/x-pgsql",
    "text/x-redshift",
    "text/x-sql",
    "text/x-qsharp",
    "text/x-razor",
    "text/x-sb",
    "text/x-scheme",
    "text/x-aes",
    "text/x-pla",
    "text/x-postiats",
    "text/x-powerquery",
    "text/x-mdx",
    "text/x-liquid",
    "text/x-m3",
    "text/x-lexon",
    "text/x-ecl",
    "text/x-cameligo",
    "text/x-pascaligo",
    "text/x-bicep",
    "text/x-azcli",
    "text/x-bat",
    "text/x-csp",
    "text/x-cypher",
    "text/x-dockerfile",
    "text/x-flow9",
    "text/x-freemarker2",
    "text/x-abap",
    "text/x-apex"]

/-- Keys of the `supportedMimeTypes` object literal, second half: the
`// Application types` entries (source order, duplicates kept). -/
def appMimeTypes : List String := [
    "application/javascript",
    "application/json",
    "application/xml",
    "application/x-httpd-php",
    "application/x-python",
    "application/x-ruby",
    "application/x-java",
    "application/x-csharp",
    "application/x-typescript",
    "application/x-ld+json",
    "application/x-yaml",
    "application/x-toml",
    "application/x-ini",
    "application/x-shellscript",
    "application/x-sql",
    "application/x-html",
    "application/x-css",
    "application/x-go",
    "application/x-rust",
    "application/x-kotlin",
    "application/x-scala",
    "application/x-swift",
    "application/x-dart",
    "application/x-elixir",
    "application/x-fsharp",
    "application/x-graphql",
    "application/x-handlebars",
    "application/x-hcl",
    "application/x-julia",
    "application/x-less",
    "application/x-lua",
    "application/x-objective-c",
    "application/x-pascal",
    "application/x-perl",
    "application/x-powershell",
    "application/x-protobuf",
    "application/x-pug",
    "application/x-r",
    "application/x-redis",
    "application/x-rst",
    "application/x-sass",
    "application/x-scss",
    "application/x-sol",
    "application/x-sparql",
    "application/x-st",
    "application/x-tcl",
    "application/x-twig",
    "application/x-vb",
    "application/x-xml",
    "application/x-yaml",
    "application/x-wgsl",
    "application/x-verilog",
    "application/x-systemverilog",
    "application/x-mips",
    "application/x-msdax",
    "application/x-mysql",
    "application/x-pgsql",
    "application/x-redshift",
    "application/x-sql",
    "application/x-qsharp",
    "application/x-razor",
    "application/x-sb",
    "application/x-scheme",
    "application/x-aes",
    "application/x-pla",
    "application/x-postiats",
    "application/x-powerquery",
    "application/x-mdx",
    "application/x-liquid",
    "application/x-m3",
    "application/x-lexon",
    "application/x-ecl",
    "application/x-cameligo",
    "application/x-pascaligo",
    "application/x-bicep",
    "application/x-azcli",
    "application/x-bat",
    "application/x-csp",
    "application/x-cypher",
    "application/x-dockerfile",
    "application/x-flow9",
    "application/x-freemarker2",
    "application/x-abap",
    "application/x-apex"]

/-- The full `supportedMimeTypes` key set.  The source writes a single object
literal; it is split here exactly at its `// Application types` comment,
preserving order. -/
def supportedMimeTypes : List String := textMimeTypes ++ appMimeTypes

/-- JavaScript `s.startsWith(p)`: `p` is a prefix of `s`, modelled on the
character lists of the two strings. -/
def strStartsWith (s p : String) : Bool :=
  p.data.isPrefixOf s.data

/-- Property names every plain JavaScript object literal inherits from
`Object.prototype`.  A bracket lookup `supportedMimeTypes[key]` on a key that
is not an own key of the literal walks the prototype chain and resolves these
names to inherited members (functions, and for `__proto__` the prototype
object itself), all of which are truthy. -/
def objectProtoKeys : List String := [
    "constructor",
    "hasOwnProperty",
    "isPrototypeOf",
    "propertyIsEnumerable",
    "toLocaleString",
    "toString",
    "valueOf",
    "__proto__",
    "__defineGetter__",
    "__defineSetter__",
    "__lookupGetter__",
    "__lookupSetter__"]

/-- `const isTextFile = supportedMimeTypes[mimeType] || mimeType.startsWith('text/')`.
The bracket lookup is truthy for an own key of the object literal (every
stored value is `true`), and also — because the literal inherits from
`Object.prototype` — for each inherited property name in `objectProtoKeys`;
any other key yields `undefined`, which is falsy. -/
def isTextFile (mimeType : String) : Bool :=
  (supportedMimeTypes.contains mimeType || objectProtoKeys.contains mimeType)
    || strStartsWith mimeType "text/"

/-- GET /api/drive/files/:id/star.  `starResult` is the outcome of the single
upstream `drive.files.get({fields: "starred"})` call. -/
def getStarHandler (accessToken : Option String)
    (starResult : Except DriveError Bool) : Resp :=
  if !(jsTruthy accessToken) then
    { status := 401, error := some "No access token found" }
  else
    match starResult with
    | .error e => driveCatch e "Failed to get file star status" 1
    | .ok b => { status := 200, starred := some b, upstreamCalls := 1 }

/-- PUT /api/drive/files/:id/star.  `starResult` is the outcome of the first
upstream read of `starred`; `updateResult v` is the outcome of
`drive.files.update({requestBody: {starred: v}, fields: "starred"})`, which the
handler invokes at the negation of the value read. -/
def toggleStarHandler (accessToken : Option String)
    (starResult : Except DriveError Bool)
    (updateResult : Bool → Except DriveError Bool) : Resp :=
  if !(jsTruthy accessToken) then
    { status := 401, error := some "No access token found" }
  else
    match starResult with
    | .error e => driveCatch e "Failed to toggle file star status" 1
    | .ok cur =>
      match updateResult (!cur) with
      | .error e => driveCatch e "Failed to toggle file star status" 2
      | .ok newStar => { status := 200, starred := some newStar, upstreamCalls := 2 }

/-- PUT /api/drive/files/:id/content.  `content` is `req.body.content`
(`none` = `undefined`; the source tests `content === undefined`, so an empty
string passes).  `metaResult` is the outcome of the upstream metadata read of
`mimeType`; `updateResult` is the outcome of the media update, returning
`(id, name, mimeType)`. -/
def setContentHandler (accessToken : Option String) (content : Option String)
    (metaResult : Except DriveError String)
    (updateResult : Except DriveError (String × String × String)) : Resp :=
  if !(jsTruthy accessToken) then
    { status := 401, error := some "No access token found" }
  else if content.isNone then
    { status := 400, error := some "Content is required" }
  else
    match metaResult with
    | .error e => driveCatch e "Failed to update file content" 1
    | .ok _mime =>
      match updateResult with
      | .error e => driveCatch e "Failed to update file content" 2
      | .ok (i, n, m) =>
        { status := 200, fileId := some i, name := some n, mimeType := some m,
          upstreamCalls := 2 }

/-- PUT /api/drive/files/:id (rename).  `filename` is `req.body.filename`; the
source tests `!filename`, so the empty string is rejected like `undefined`.
`updateResult` is the outcome of the metadata update, returning `(id, name)`. -/
def renameHandler (accessToken : Option String) (filename : Option String)
    (updateResult : Except DriveError (String × String)) : Resp :=
  if !(jsTruthy accessToken) then
    { status := 401, error := some "No access token found" }
  else if !(jsTruthy filename) then
    { status := 400, error := some "Filename is required" }
  else
    match updateResult with
    | .error e => driveCatch e "Failed to rename file" 1
    | .ok (i, n) =>
      { status := 200, fileId := some i, name := some n, upstreamCalls := 1 }

/-- GET /api/drive/files/:id (get content).  `metaResult` is the outcome of the
metadata read (`name, mimeType, starred`); `mediaResult` is the outcome of the
`alt: "media"` text read, performed only when the MIME gate accepts. -/
def getContentHandler (accessToken : Option String)
    (metaResult : Except DriveError FileMeta)
    (mediaResult : Except DriveError String) : Resp :=
  if !(jsTruthy accessToken) then
    { status := 401, error := some "No access token found" }
  else
    match metaResult with
    | .error e => driveCatch e "Failed to fetch file" 1
    | .ok meta =>
      if !(isTextFile meta.mimeType) then
        { status := 400, error := some "Unsupported file type",
          mimeType := some meta.mimeType, upstreamCalls := 1 }
      else
        match mediaResult with
        | .error e => driveCatch e "Failed to fetch file" 2
        | .ok data =>
          { status := 200, filename := some meta.name, content := some data,
            starred := some meta.starred, upstreamCalls := 2 }

/-- GET /api/auth/user.  `userResult` is the outcome of the userinfo call; its
error carries the thrown message. -/
def getUserHandler (accessToken : Option String)
    (userResult : Except String UserInfo) : Resp :=
  if !(jsTruthy accessToken) then
    { status := 401, error := some "No access token found" }
  else
    match userResult with
    | .error _ =>
      { status := 500, error := some "Failed to fetch user information",
        upstreamCalls := 1 }
    | .ok u =>
      { status := 200, fileId := some u.id, email := some u.email,
        name := some u.name, picture := some u.picture, upstreamCalls := 1 }

/-- GET /auth/callback.  `code` and `state` are the query parameters
(`none` = absent); `tokenResult` is the outcome of
`oauth2Client.getToken(code)`.  Missing tokens raise inside the `try`, so both
the upstream failure and the missing-token check land in the same 500 catch.
`frontendUrl` is the environment-selected frontend base URL. -/
def authCallbackHandler (frontendUrl : String) (code state : Option String)
    (tokenResult : Except String GoogleTokens) : Resp :=
  if !(jsTruthy code) then
    { status := 400, error := some "Missing authorization code" }
  else if !(jsTruthy state) then
    { status := 400, error := some "Missing state parameter" }
  else
    match tokenResult with
    | .error _ =>
      { status := 500, error := some "Authentication failed", upstreamCalls := 1 }
    | .ok tokens =>
      if !(jsTruthy tokens.access_token) || !(jsTruthy tokens.refresh_token) then
        { status := 500, error := some "Authentication failed", upstreamCalls := 1 }
      else
        { status := 302,
          redirectTo :=
            some (frontendUrl ++ (if jsTruthy state then state.getD "" else "/")),
          cookiesSet := [
            { name := "accessToken", value := tokens.access_token.getD "",
              maxAgeMs := 3600000 },
            { name := "refreshToken", value := tokens.refresh_token.getD "",
              maxAgeMs := 30 * 24 * 3600000 }],
          upstreamCalls := 1 }

/-- POST /api/auth/refresh.  `refreshToken` is the cookie; `refreshResult` is
the outcome of `oauth2Client.refreshAccessToken()`.  A missing new access
token raises inside the `try`, landing in the same 401 catch as an upstream
rejection.  On success only the `accessToken` cookie is set. -/
def refreshHandler (refreshToken : Option String)
    (refreshResult : Except String Credentials) : Resp :=
  if !(jsTruthy refreshToken) then
    { status := 401, error := some "No refresh token found" }
  else
    match refreshResult with
    | .error _ =>
      { status := 401, error := some "Failed to refresh token", upstreamCalls := 1 }
    | .ok credentials =>
      if !(jsTruthy credentials.access_token) then
        { status := 401, error := some "Failed to refresh token", upstreamCalls := 1 }
      else
        { status := 200, success := some true,
          cookiesSet := [
            { name := "accessToken", value := credentials.access_token.getD "",
              maxAgeMs := 3600000 }],
          upstreamCalls := 1 }

/-! A mocked upstream Drive, for sequential-behaviour properties: a store of
files keyed by file id.  `drive.files.get` reads a field of the stored file or
fails with code 404; `drive.files.update` writes the field and echoes the
written value back, as the Drive API does for the requested `fields`. -/

/-- A stored Drive file (the fields this server ever touches). -/
structure DriveFile where
  name : String
  mimeType : String
  starred : Bool
  content : String
deriving DecidableEq

/-- The mocked Drive store. -/
abbrev DriveState : Type := List (String × DriveFile)

/-- Find a file by id. -/
def lookupFile (s : DriveState) (fid : String) : Option DriveFile :=
  List.lookup fid s

/-- Mocked `drive.files.get({fileId, fields: "starred"})`. -/
def mockGetStarred (s : DriveState) (fid : String) : Except DriveError Bool :=
  match lookupFile s fid with
  | some f => .ok f.starred
  | none => .error { code := some 404 }

/-- Write `starred := v` on the file `fid` in the store. -/
def setStarred (s : DriveState) (fid : String) (v : Bool) : DriveState :=
  List.map (fun p => if p.1 = fid then (p.1, { p.2 with starred := v }) else p) s

/-- Mocked `drive.files.update({fileId, requestBody: {starred: v},
fields: "starred"})`: returns the new store and the written value. -/
def mockUpdateStarred (s : DriveState) (fid : String) (v : Bool) :
    Except DriveError (DriveState × Bool) :=
  match lookupFile s fid with
  | some _ => .ok (setStarred s fid v, v)
  | none => .error { code := some 404 }

/-- PUT /api/drive/files/:id/star run against the mocked Drive store: the same
control flow as `toggleStarHandler`, with the two upstream calls answered by
the store, threading the store through the write. -/
def toggleStarRun (accessToken : Option String) (fid : String) (s : DriveState) :
    Resp × DriveState :=
  if !(jsTruthy accessToken) then
    ({ status := 401, error := some "No access token found" }, s)
  else
    match mockGetStarred s fid with
    | .error e => (driveCatch e "Failed to toggle file star status" 1, s)
    | .ok cur =>
      match mockUpdateStarred s fid (!cur) with
      | .error e => (driveCatch e "Failed to toggle file star status" 2, s)
      | .ok (s2, newStar) =>
        ({ status := 200, starred := some newStar, upstreamCalls := 2 }, s2)

/-- The status every Drive handler's `catch` block produces from an upstream
error: 404 when `error.code === 404`, 500 otherwise. -/
def translatedStatus (e : DriveError) : Nat :=
  if e.code == some 404 then 404 else 500

/-- The simplified MIME gate the refinement claim describes: membership among
the `application/...` allow-list entries, or the `text/` name prefix. -/
def isTextFileSimplified (m : String) : Bool :=
  appMimeTypes.contains m || strStartsWith m "text/"

/-- The §4.4 MIME gate exactly as the spec words it: membership of the fixed
allow-list, or the `text/` name prefix — without the inherited
`Object.prototype` names the program's object lookup also resolves. -/
def specIsTextLike (m : String) : Bool :=
  supportedMimeTypes.contains m || strStartsWith m "text/"


/-! ## Supporting lemmas -/

theorem jsTruthy_some_of_ne (s : String) (h : s ≠ "") : jsTruthy (some s) = true := by
  simp [jsTruthy, h]

theorem driveCatch_status (e : DriveError) (msg : String) (calls : Nat) :
    (driveCatch e msg calls).status = translatedStatus e := by
  unfold driveCatch translatedStatus
  split <;> rfl

theorem driveCatch_calls (e : DriveError) (msg : String) (calls : Nat) :
    (driveCatch e msg calls).upstreamCalls = calls := by
  unfold driveCatch
  split <;> rfl

theorem lookupFile_setStarred (s : DriveState) (fid : String) (v : Bool) :
    lookupFile (setStarred s fid v) fid
      = Option.map (fun f => { f with starred := v }) (lookupFile s fid) := by
  induction s with
  | nil => rfl
  | cons p t ih =>
    obtain ⟨k, f⟩ := p
    by_cases hk : k = fid
    · subst hk
      simp [lookupFile, setStarred, List.lookup_cons]
    · have hbf : (fid == k) = false := beq_eq_false_iff_ne.mpr (Ne.symm hk)
      simpa [lookupFile, setStarred, List.lookup_cons, hk, hbf] using ih

theorem mem_textMimeTypes_startsWith (m : String) (hm : m ∈ textMimeTypes) :
    strStartsWith m "text/" = true := by
  have h : textMimeTypes.all (fun x => strStartsWith x "text/") = true := by decide
  exact List.all_eq_true.mp h m hm


/-! ## Claims -/

/-- C1: every Drive File Gateway operation (get-star, toggle-star, get-content,
set-content, rename) and the fetch-current-user operation, invoked with no
`accessToken` cookie, returns 401 and performs zero upstream calls, whatever
the upstream would have answered. -/
theorem noToken_unauthenticated_no_upstream
    (starResult : Except DriveError Bool)
    (updateResult : Bool → Except DriveError Bool)
    (content filename : Option String)
    (metaMime : Except DriveError String)
    (upd3 : Except DriveError (String × String × String))
    (upd2 : Except DriveError (String × String))
    (metaResult : Except DriveError FileMeta)
    (mediaResult : Except DriveError String)
    (userResult : Except String UserInfo) :
    ((getStarHandler none starResult).status = 401
      ∧ (getStarHandler none starResult).upstreamCalls = 0)
    ∧ ((toggleStarHandler none starResult updateResult).status = 401
      ∧ (toggleStarHandler none starResult updateResult).upstreamCalls = 0)
    ∧ ((getContentHandler none metaResult mediaResult).status = 401
      ∧ (getContentHandler none metaResult mediaResult).upstreamCalls = 0)
    ∧ ((setContentHandler none content metaMime upd3).status = 401
      ∧ (setContentHandler none content metaMime upd3).upstreamCalls = 0)
    ∧ ((renameHandler none filename upd2).status = 401
      ∧ (renameHandler none filename upd2).upstreamCalls = 0)
    ∧ ((getUserHandler none userResult).status = 401
      ∧ (getUserHandler none userResult).upstreamCalls = 0) :=
  ⟨⟨rfl, rfl⟩, ⟨rfl, rfl⟩, ⟨rfl, rfl⟩, ⟨rfl, rfl⟩, ⟨rfl, rfl⟩, rfl, rfl⟩

/-- C2: the /auth/callback handler answers 400 whenever the `code` query
parameter is absent or the `state` query parameter is absent, and issues no
upstream token-exchange call in either case. -/
theorem exchangeCode_missing_param_400 (frontendUrl : String)
    (code state : Option String) (tokenResult : Except String GoogleTokens)
    (h : code = none ∨ state = none) :
    (authCallbackHandler frontendUrl code state tokenResult).status = 400
    ∧ (authCallbackHandler frontendUrl code state tokenResult).upstreamCalls = 0 := by
  rcases h with h | h
  · subst h; exact ⟨rfl, rfl⟩
  · subst h
    cases code with
    | none => exact ⟨rfl, rfl⟩
    | some s =>
      by_cases hs : s = ""
      · subst hs; exact ⟨rfl, rfl⟩
      · simp [authCallbackHandler, jsTruthy, hs]

theorem exchangeCode_missing_param_400_witness :
    (authCallbackHandler "http://localhost:5173" (some "4/P7abc") none
        (.ok ⟨some "ya29.a0", some "1//0g"⟩)).status = 400
    ∧ (authCallbackHandler "http://localhost:5173" (some "4/P7abc") none
        (.ok ⟨some "ya29.a0", some "1//0g"⟩)).upstreamCalls = 0 :=
  exchangeCode_missing_param_400 "http://localhost:5173" (some "4/P7abc") none
    (.ok ⟨some "ya29.a0", some "1//0g"⟩) (Or.inr rfl)

/-- C3: when the provider returns both tokens, the /auth/callback handler sets
the `accessToken` cookie with max-age 3600 seconds (3600000 ms) and the
`refreshToken` cookie with max-age 30 days, and redirects to the frontend base
URL concatenated with the `state` value verbatim. -/
theorem exchangeCode_success_cookies_redirect (frontendUrl sVal a r : String)
    (code : Option String) (hc : jsTruthy code = true)
    (hs : sVal ≠ "") (ha : a ≠ "") (hr : r ≠ "") :
    authCallbackHandler frontendUrl code (some sVal) (.ok ⟨some a, some r⟩) =
      { status := 302,
        redirectTo := some (frontendUrl ++ sVal),
        cookiesSet := [⟨"accessToken", a, 3600 * 1000⟩,
                       ⟨"refreshToken", r, 30 * 24 * (3600 * 1000)⟩],
        upstreamCalls := 1 } := by
  have h1 := jsTruthy_some_of_ne sVal hs
  have h2 := jsTruthy_some_of_ne a ha
  have h3 := jsTruthy_some_of_ne r hr
  simp [authCallbackHandler, hc, h1, h2, h3]

theorem exchangeCode_success_cookies_redirect_witness :
    authCallbackHandler "http://localhost:5173" (some "4/P7abc") (some "/editor/42")
        (.ok ⟨some "ya29.a0", some "1//0g"⟩) =
      { status := 302,
        redirectTo := some ("http://localhost:5173" ++ "/editor/42"),
        cookiesSet := [⟨"accessToken", "ya29.a0", 3600 * 1000⟩,
                       ⟨"refreshToken", "1//0g", 30 * 24 * (3600 * 1000)⟩],
        upstreamCalls := 1 } :=
  exchangeCode_success_cookies_redirect "http://localhost:5173" "/editor/42"
    "ya29.a0" "1//0g" (some "4/P7abc") (by decide) (by decide) (by decide)
    (by decide)

/-- C4: the /api/auth/refresh handler answers 401 with no upstream call when
the refresh cookie is absent; answers 401 when the provider rejects the
refresh token or omits the new access token; and on success sets only the
`accessToken` cookie, leaving `refreshToken` untouched. -/
theorem refreshAccessToken_cases (refreshResult : Except String Credentials)
    (tok errMsg newTok : String) (ht : tok ≠ "") (hn : newTok ≠ "") :
    ((refreshHandler none refreshResult).status = 401
      ∧ (refreshHandler none refreshResult).upstreamCalls = 0)
    ∧ (refreshHandler (some tok) (.error errMsg)).status = 401
    ∧ (refreshHandler (some tok) (.ok ⟨none⟩)).status = 401
    ∧ refreshHandler (some tok) (.ok ⟨some newTok⟩) =
        { status := 200, success := some true,
          cookiesSet := [⟨"accessToken", newTok, 3600 * 1000⟩],
          upstreamCalls := 1 } := by
  refine ⟨⟨rfl, rfl⟩, ?_, ?_, ?_⟩ <;>
    simp [refreshHandler, jsTruthy, ht, hn]

theorem refreshAccessToken_cases_witness :
    ((refreshHandler none (.ok ⟨some "ya29.new"⟩)).status = 401
      ∧ (refreshHandler none (.ok ⟨some "ya29.new"⟩)).upstreamCalls = 0)
    ∧ (refreshHandler (some "1//0g") (.error "invalid_grant")).status = 401
    ∧ (refreshHandler (some "1//0g") (.ok ⟨none⟩)).status = 401
    ∧ refreshHandler (some "1//0g") (.ok ⟨some "ya29.new"⟩) =
        { status := 200, success := some true,
          cookiesSet := [⟨"accessToken", "ya29.new", 3600 * 1000⟩],
          upstreamCalls := 1 } :=
  refreshAccessToken_cases (.ok ⟨some "ya29.new"⟩) "1//0g" "invalid_grant"
    "ya29.new" (by decide) (by decide)

/-- C5, counterexample to the claim as stated: the gate is NOT
"true exactly when member of the allow-list or `text/`-prefixed" — at
`"constructor"` the object lookup hits the inherited `Object.prototype`
member, so the gate is true although the string is neither an allow-list
member nor `text/`-prefixed. -/
theorem isTextLike_member_or_prefix_refuted :
    isTextFile "constructor" = true
    ∧ ¬ ("constructor" ∈ supportedMimeTypes)
    ∧ strStartsWith "constructor" "text/" = false := by
  refine ⟨by decide, by decide, by decide⟩

/-- C5, amended: the MIME gate is true exactly when the mime string is a
member of the allow-list, or has the `text/` name prefix, or is one of the
`Object.prototype` property names the bracket lookup resolves by prototype
chain; `"text/anything"` still passes only by the prefix fallback (it is not
listed) and `"application/pdf"` is still rejected. -/
theorem isTextLike_membership_prefix_or_proto (m : String) :
    (isTextFile m = true ↔
      (m ∈ supportedMimeTypes ∨ strStartsWith m "text/" = true
        ∨ m ∈ objectProtoKeys))
    ∧ isTextFile "text/anything" = true
    ∧ ¬ ("text/anything" ∈ supportedMimeTypes)
    ∧ isTextFile "application/pdf" = false := by
  refine ⟨?_, by decide, by decide, by decide⟩
  simp [isTextFile, List.contains_eq_any_beq, List.any_eq_true, beq_iff_eq]
  tauto

/-- C6, counterexample to the claim as stated: at mime type `"constructor"`
the spec-worded membership-or-prefix gate rejects, yet the program's object
lookup resolves the inherited `Object.prototype` member, so the handler skips
the 400, performs the media read and returns the content. -/
theorem getContent_specGate_reject_still_reads :
    specIsTextLike "constructor" = false
    ∧ getContentHandler (some "ya29.tok") (.ok ⟨"weird", "constructor", false⟩)
        (.ok "body") =
      { status := 200, filename := some "weird", content := some "body",
        starred := some false, upstreamCalls := 2 } := by
  refine ⟨by decide, by decide⟩

/-- C6, amended: get-content reads metadata first; a mime type rejected by the
program's lookup gate (allow-list membership, inherited `Object.prototype`
name, or `text/` prefix) yields the 400 unsupported-media response after
exactly one upstream call (no media read), an accepted mime type yields
exactly one further upstream call and, when that read succeeds, the
`{filename, content, starred}` body; in particular `application/pdf` is
rejected and `text/markdown` content is returned inline. -/
theorem getContent_mime_gate (tok fname data : String) (st : Bool)
    (ht : tok ≠ "") (meta : FileMeta)
    (mediaResult : Except DriveError String) :
    (isTextFile meta.mimeType = false →
      getContentHandler (some tok) (.ok meta) mediaResult =
        { status := 400, error := some "Unsupported file type",
          mimeType := some meta.mimeType, upstreamCalls := 1 })
    ∧ (isTextFile meta.mimeType = true →
        (getContentHandler (some tok) (.ok meta) mediaResult).upstreamCalls = 2)
    ∧ (isTextFile meta.mimeType = true →
        getContentHandler (some tok) (.ok meta) (.ok data) =
          { status := 200, filename := some meta.name, content := some data,
            starred := some meta.starred, upstreamCalls := 2 })
    ∧ getContentHandler (some tok) (.ok ⟨fname, "application/pdf", st⟩) mediaResult =
        { status := 400, error := some "Unsupported file type",
          mimeType := some "application/pdf", upstreamCalls := 1 }
    ∧ getContentHandler (some tok) (.ok ⟨fname, "text/markdown", st⟩) (.ok data) =
        { status := 200, filename := some fname, content := some data,
          starred := some st, upstreamCalls := 2 } := by
  have hTok := jsTruthy_some_of_ne tok ht
  refine ⟨?_, ?_, ?_, ?_, ?_⟩
  · intro hg
    simp [getContentHandler, hTok, hg]
  · intro hg
    cases mediaResult with
    | error e => simp [getContentHandler, hTok, hg, driveCatch_calls]
    | ok data2 => simp [getContentHandler, hTok, hg]
  · intro hg
    simp [getContentHandler, hTok, hg]
  · have hg : isTextFile "application/pdf" = false := by decide
    simp [getContentHandler, hTok, hg]
  · have hg : isTextFile "text/markdown" = true := by decide
    simp [getContentHandler, hTok, hg]

theorem getContent_mime_gate_witness :
    (isTextFile "application/pdf" = false →
      getContentHandler (some "ya29.a0") (.ok ⟨"slides.pdf", "application/pdf", false⟩)
          (.ok "raw") =
        { status := 400, error := some "Unsupported file type",
          mimeType := some "application/pdf", upstreamCalls := 1 })
    ∧ (isTextFile "application/pdf" = true →
        (getContentHandler (some "ya29.a0")
          (.ok ⟨"slides.pdf", "application/pdf", false⟩) (.ok "raw")).upstreamCalls = 2)
    ∧ (isTextFile "application/pdf" = true →
        getContentHandler (some "ya29.a0")
            (.ok ⟨"slides.pdf", "application/pdf", false⟩) (.ok "raw") =
          { status := 200, filename := some "slides.pdf", content := some "raw",
            starred := some false, upstreamCalls := 2 })
    ∧ getContentHandler (some "ya29.a0") (.ok ⟨"slides.pdf", "application/pdf", false⟩)
          (.ok "raw") =
        { status := 400, error := some "Unsupported file type",
          mimeType := some "application/pdf", upstreamCalls := 1 }
    ∧ getContentHandler (some "ya29.a0") (.ok ⟨"slides.pdf", "text/markdown", false⟩)
          (.ok "raw") =
        { status := 200, filename := some "slides.pdf", content := some "raw",
          starred := some false, upstreamCalls := 2 } :=
  getContent_mime_gate "ya29.a0" "slides.pdf" "raw" false (by decide)
    ⟨"slides.pdf", "application/pdf", false⟩ (.ok "raw")

/-- C7: toggle-star reads the current `starred`, writes its negation (the
store afterwards holds the negated value), and returns the negated value; a
second sequential call with no interleaving writes returns the file's original
`starred` value. -/
theorem toggleStar_negates_and_twice_restores (tok fid : String) (ht : tok ≠ "")
    (s : DriveState) (f : DriveFile) (hf : lookupFile s fid = some f) :
    (toggleStarRun (some tok) fid s).1.starred = some (!f.starred)
    ∧ lookupFile (toggleStarRun (some tok) fid s).2 fid
        = some { f with starred := !f.starred }
    ∧ (toggleStarRun (some tok) fid (toggleStarRun (some tok) fid s).2).1.starred
        = some f.starred := by
  have hTok := jsTruthy_some_of_ne tok ht
  have h1 : toggleStarRun (some tok) fid s =
      ({ status := 200, starred := some (!f.starred), upstreamCalls := 2 },
        setStarred s fid (!f.starred)) := by
    simp [toggleStarRun, mockGetStarred, mockUpdateStarred, hf, hTok]
  have h2 : lookupFile (setStarred s fid (!f.starred)) fid
      = some { f with starred := !f.starred } := by
    rw [lookupFile_setStarred, hf]; rfl
  refine ⟨by rw [h1], by rw [h1]; exact h2, ?_⟩
  rw [h1]
  simp [toggleStarRun, mockGetStarred, mockUpdateStarred, h2, hTok]

theorem toggleStar_negates_and_twice_restores_witness :
    (toggleStarRun (some "ya29.a0") "f1"
        [("f1", ⟨"notes.md", "text/markdown", false, "hi"⟩)]).1.starred = some true
    ∧ lookupFile (toggleStarRun (some "ya29.a0") "f1"
          [("f1", ⟨"notes.md", "text/markdown", false, "hi"⟩)]).2 "f1"
        = some ⟨"notes.md", "text/markdown", true, "hi"⟩
    ∧ (toggleStarRun (some "ya29.a0") "f1"
          (toggleStarRun (some "ya29.a0") "f1"
            [("f1", ⟨"notes.md", "text/markdown", false, "hi"⟩)]).2).1.starred
        = some false :=
  toggleStar_negates_and_twice_restores "ya29.a0" "f1" (by decide)
    [("f1", ⟨"notes.md", "text/markdown", false, "hi"⟩)]
    ⟨"notes.md", "text/markdown", false, "hi"⟩ rfl

/-- C8: in every Drive handler, at every upstream call position, an upstream
error with code 404 becomes HTTP 404 and any other upstream error becomes
HTTP 500; every upstream failure is translated to one of the two. -/
theorem upstream_error_translated (tok fname cont mime : String)
    (ht : tok ≠ "") (hfn : fname ≠ "") (e : DriveError) (b : Bool)
    (meta : FileMeta) (hm : isTextFile meta.mimeType = true)
    (updB : Bool → Except DriveError Bool)
    (upd3 : Except DriveError (String × String × String))
    (media : Except DriveError String) :
    (getStarHandler (some tok) (.error e)).status = translatedStatus e
    ∧ (toggleStarHandler (some tok) (.error e) updB).status = translatedStatus e
    ∧ (toggleStarHandler (some tok) (.ok b) (fun _ => .error e)).status
        = translatedStatus e
    ∧ (getContentHandler (some tok) (.error e) media).status = translatedStatus e
    ∧ (getContentHandler (some tok) (.ok meta) (.error e)).status = translatedStatus e
    ∧ (setContentHandler (some tok) (some cont) (.error e) upd3).status
        = translatedStatus e
    ∧ (setContentHandler (some tok) (some cont) (.ok mime) (.error e)).status
        = translatedStatus e
    ∧ (renameHandler (some tok) (some fname) (.error e)).status = translatedStatus e
    ∧ (e.code = some 404 → translatedStatus e = 404)
    ∧ (e.code ≠ some 404 → translatedStatus e = 500)
    ∧ (translatedStatus e = 404 ∨ translatedStatus e = 500) := by
  have hTok := jsTruthy_some_of_ne tok ht
  have hFn := jsTruthy_some_of_ne fname hfn
  refine ⟨?_, ?_, ?_, ?_, ?_, ?_, ?_, ?_, ?_, ?_, ?_⟩
  · simp [getStarHandler, hTok, driveCatch_status]
  · simp [toggleStarHandler, hTok, driveCatch_status]
  · simp [toggleStarHandler, hTok, driveCatch_status]
  · simp [getContentHandler, hTok, driveCatch_status]
  · simp [getContentHandler, hTok, hm, driveCatch_status]
  · simp [setContentHandler, hTok, driveCatch_status]
  · simp [setContentHandler, hTok, driveCatch_status]
  · simp [renameHandler, hTok, hFn, driveCatch_status]
  · intro h404
    simp [translatedStatus, h404]
  · intro h404
    have hb : (e.code == some 404) = false := by
      cases hc : e.code == some 404
      · rfl
      · exact absurd (by simpa using (beq_iff_eq.mp hc)) h404
    simp [translatedStatus, hb]
  · unfold translatedStatus
    split
    · exact Or.inl rfl
    · exact Or.inr rfl

theorem upstream_error_translated_witness :
    ((getStarHandler (some "ya29.a0") (.error ⟨some 404⟩)).status
        = translatedStatus ⟨some 404⟩)
    ∧ (toggleStarHandler (some "ya29.a0") (.error ⟨some 404⟩)
        (fun v => .ok v)).status = translatedStatus ⟨some 404⟩
    ∧ (toggleStarHandler (some "ya29.a0") (.ok false)
        (fun _ => .error ⟨some 404⟩)).status = translatedStatus ⟨some 404⟩
    ∧ (getContentHandler (some "ya29.a0") (.error ⟨some 404⟩)
        (.ok "raw")).status = translatedStatus ⟨some 404⟩
    ∧ (getContentHandler (some "ya29.a0")
        (.ok ⟨"notes.md", "text/markdown", false⟩)
        (.error ⟨some 404⟩)).status = translatedStatus ⟨some 404⟩
    ∧ (setContentHandler (some "ya29.a0") (some "body") (.error ⟨some 404⟩)
        (.ok ("f1", "notes.md", "text/markdown"))).status
        = translatedStatus ⟨some 404⟩
    ∧ (setContentHandler (some "ya29.a0") (some "body") (.ok "text/markdown")
        (.error ⟨some 404⟩)).status = translatedStatus ⟨some 404⟩
    ∧ (renameHandler (some "ya29.a0") (some "new.md")
        (.error ⟨some 404⟩)).status = translatedStatus ⟨some 404⟩
    ∧ ((⟨some 404⟩ : DriveError).code = some 404 →
        translatedStatus ⟨some 404⟩ = 404)
    ∧ ((⟨some 404⟩ : DriveError).code ≠ some 404 →
        translatedStatus ⟨some 404⟩ = 500)
    ∧ (translatedStatus ⟨some 404⟩ = 404 ∨ translatedStatus ⟨some 404⟩ = 500) :=
  upstream_error_translated "ya29.a0" "new.md" "body" "text/markdown"
    (by decide) (by decide) ⟨some 404⟩ false
    ⟨"notes.md", "text/markdown", false⟩ (by decide)
    (fun v => .ok v) (.ok ("f1", "notes.md", "text/markdown")) (.ok "raw")

/-- C9: set-content rejects with 400 (and no upstream call) only a body whose
`content` is strictly `undefined`; an empty-string `content` is accepted and
forwarded upstream (two upstream calls, 200 on success).  Rename, by
contrast, rejects the empty-string filename with 400 exactly like an absent
filename, with no upstream call. -/
theorem setContent_empty_accepted_rename_empty_rejected (tok i n m : String)
    (ht : tok ≠ "")
    (metaResult : Except DriveError String)
    (upd2 : Except DriveError (String × String)) :
    ((setContentHandler (some tok) none metaResult
        (.ok (i, n, m))).status = 400
      ∧ (setContentHandler (some tok) none metaResult
          (.ok (i, n, m))).upstreamCalls = 0)
    ∧ setContentHandler (some tok) (some "") (.ok m) (.ok (i, n, m)) =
        { status := 200, fileId := some i, name := some n, mimeType := some m,
          upstreamCalls := 2 }
    ∧ ((renameHandler (some tok) (some "") upd2).status = 400
      ∧ (renameHandler (some tok) (some "") upd2).upstreamCalls = 0)
    ∧ ((renameHandler (some tok) none upd2).status = 400
      ∧ (renameHandler (some tok) none upd2).upstreamCalls = 0) := by
  refine ⟨⟨?_, ?_⟩, ?_, ⟨?_, ?_⟩, ?_, ?_⟩ <;>
    simp [setContentHandler, renameHandler, jsTruthy, ht]

theorem setContent_empty_accepted_rename_empty_rejected_witness :
    ((setContentHandler (some "ya29.a0") none (.ok "text/markdown")
        (.ok ("f1", "notes.md", "text/markdown"))).status = 400
      ∧ (setContentHandler (some "ya29.a0") none (.ok "text/markdown")
          (.ok ("f1", "notes.md", "text/markdown"))).upstreamCalls = 0)
    ∧ setContentHandler (some "ya29.a0") (some "") (.ok "text/markdown")
          (.ok ("f1", "notes.md", "text/markdown")) =
        { status := 200, fileId := some "f1", name := some "notes.md",
          mimeType := some "text/markdown", upstreamCalls := 2 }
    ∧ ((renameHandler (some "ya29.a0") (some "")
          (.ok ("f1", "notes.md"))).status = 400
      ∧ (renameHandler (some "ya29.a0") (some "")
          (.ok ("f1", "notes.md"))).upstreamCalls = 0)
    ∧ ((renameHandler (some "ya29.a0") none
          (.ok ("f1", "notes.md"))).status = 400
      ∧ (renameHandler (some "ya29.a0") none
          (.ok ("f1", "notes.md"))).upstreamCalls = 0) :=
  setContent_empty_accepted_rename_empty_rejected "ya29.a0" "f1" "notes.md"
    "text/markdown" (by decide) (.ok "text/markdown") (.ok ("f1", "notes.md"))

/-- C10, counterexample to the claim as stated: the full gate is NOT
extensionally equal to the simplified membership-or-prefix predicate — at
`"constructor"` the gate's prototype-chain lookup accepts while the
simplified predicate rejects. -/
theorem isTextFile_eq_simplified_refuted :
    isTextFile "constructor" = true
    ∧ isTextFileSimplified "constructor" = false := by
  refine ⟨by decide, by decide⟩

/-- C10, amended: every `text/...` key of the allow-list is subsumed by the
`text/` prefix fallback, so the full MIME gate is extensionally equal to the
simplified predicate (membership among the `application/...` entries, or the
`text/` name prefix) extended with membership of the inherited
`Object.prototype` names the bracket lookup resolves. -/
theorem isTextFile_eq_simplified_or_proto (m : String) :
    isTextFile m = (isTextFileSimplified m || objectProtoKeys.contains m) := by
  by_cases hm : m ∈ textMimeTypes
  · have h1 : strStartsWith m "text/" = true := mem_textMimeTypes_startsWith m hm
    simp [isTextFile, isTextFileSimplified, h1]
  · by_cases ha : m ∈ appMimeTypes
    · have h2 : m ∈ supportedMimeTypes := List.mem_append.mpr (Or.inr ha)
      simp [isTextFile, isTextFileSimplified, List.contains_eq_any_beq,
        List.any_eq_true, beq_iff_eq, h2, ha]
    · have h2 : ¬ (m ∈ supportedMimeTypes) := by
        simpa [supportedMimeTypes, List.mem_append] using
          (not_or.mpr ⟨hm, ha⟩)
      simp [isTextFile, isTextFileSimplified, List.contains_eq_any_beq,
        List.any_eq_true, beq_iff_eq, h2, ha, Bool.or_comm]

end Cote
